import Mathlib

/-!
Shallow embedding of `src/inventory_app.py` (LoginPulse repository).

The program is a single-window Tkinter form: an in-memory list
`self._items : list[InventoryItem]` (the Ledger), a `ttk.Treeview` whose
rows mirror that list, four `StringVar` form fields, and four operations
`add_item`, `delete_selected`, `clear_items`, `export_csv`.

Modelling choices:
* Strings are Lean `String`; Python's `str.strip()` and `int(...)` are
  modelled over ASCII whitespace and ASCII digits (all inputs in the
  claims are ASCII).
* The Treeview is a list of value tuples `Row`, in display order; tkinter
  round-trips the stored tuple `(name, quantity, location, notes)`
  (quantity as an integer under tkinter's default object conversion), so
  `Row` carries the same four components as `InventoryItem`.
* GUI dialogs (warnings, the save-file prompt, the yes/no confirmation)
  are modelled as result values / explicit parameters; the file system is
  modelled by a parameter saying whether the write succeeds and a result
  carrying the written text.
-/

/-- `InventoryItem` dataclass: name, quantity, location, notes. -/
structure InventoryItem where
  name : String
  quantity : Int
  location : String
  notes : String
deriving DecidableEq, Repr

/-- A Treeview row: the `values=(item.name, item.quantity, item.location,
item.notes)` tuple stored by `_append_to_table`. -/
abbrev Row : Type := String × Int × String × String

/-- `_append_to_table`: the values tuple inserted for an item. -/
def toRow (it : InventoryItem) : Row := (it.name, it.quantity, it.location, it.notes)

/-- `InventoryItem(*values)` on line 139: rebuild an item positionally from
a row's values tuple. -/
def fromRow (r : Row) : InventoryItem := ⟨r.1, r.2.1, r.2.2.1, r.2.2.2⟩

/-- The mutable state of `InventoryApp`: the Ledger `_items`, the Treeview
rows in display order, and the four form `StringVar`s. -/
structure AppState where
  items : List InventoryItem
  tree : List Row
  name_var : String
  quantity_var : String
  location_var : String
  notes_var : String
deriving DecidableEq, Repr

/-- `InventoryApp.__init__`: empty ledger, empty table, empty form fields
except `quantity_var = StringVar(value="1")`. -/
def initState : AppState :=
  { items := [], tree := [], name_var := "", quantity_var := "1",
    location_var := "", notes_var := "" }

/- ### Python string helpers (ASCII fragment) -/

/-- Python `str.strip()` with no argument: drop leading and trailing
whitespace (ASCII fragment: space, tab, CR, LF). -/
def pyStrip (s : String) : String :=
  String.mk (((s.data.dropWhile Char.isWhitespace).reverse.dropWhile
    Char.isWhitespace).reverse)

/- ### Python `int(...)` on a string (ASCII fragment)

`int(s)` strips surrounding whitespace, accepts an optional sign, then
requires one or more decimal digits where single underscores may separate
digit groups ("1_0" parses, "_1", "1_", "1__0", "" do not). -/

/-- Digit tail after the first digit: digits, with single underscores
allowed only between digits. Accumulates the value. -/
def pyDigitsAux : List Char → Nat → Option Nat
  | [], acc => some acc
  | '_' :: c :: cs, acc =>
      if c.isDigit then pyDigitsAux cs (acc * 10 + (c.toNat - '0'.toNat)) else none
  | ['_'], _ => none
  | c :: cs, acc =>
      if c.isDigit then pyDigitsAux cs (acc * 10 + (c.toNat - '0'.toNat)) else none

/-- The digit part must start with a digit (not an underscore). -/
def pyDigits : List Char → Option Nat
  | [] => none
  | c :: cs => if c.isDigit then pyDigitsAux cs (c.toNat - '0'.toNat) else none

/-- Python `int(s)` for a string `s`: `some n` when `int(s)` returns `n`,
`none` when it raises `ValueError`. -/
def pyInt (s : String) : Option Int :=
  match (pyStrip s).data with
  | '+' :: cs => (pyDigits cs).map (fun n => (n : Int))
  | '-' :: cs => (pyDigits cs).map (fun n => -(n : Int))
  | cs => (pyDigits cs).map (fun n => (n : Int))

/- ### The four operations -/

/-- Outcome of `add_item`: which modal warning was shown, or the item that
was appended. -/
inductive AddResult where
  | emptyName
  | invalidQuantity
  | added (it : InventoryItem)
deriving DecidableEq, Repr

/-- `InventoryApp.add_item` (lines 94-116): trim the name and warn
`emptyName` if blank; parse the quantity with `int(...)` and warn
`invalidQuantity` if unparseable or `< 1`; otherwise build the item (with
location and notes also stripped), append it to `_items`, insert its row
into the tree, and reset the form via `_reset_form`. -/
def add_item (s : AppState) : AppState × AddResult :=
  let name := pyStrip s.name_var
  if name = "" then (s, .emptyName)
  else
    match pyInt s.quantity_var with
    | none => (s, .invalidQuantity)
    | some quantity =>
      if quantity < 1 then (s, .invalidQuantity)
      else
        let item : InventoryItem :=
          ⟨name, quantity, pyStrip s.location_var, pyStrip s.notes_var⟩
        ({ items := s.items ++ [item],
           tree := s.tree ++ [toRow item],
           name_var := "", quantity_var := "1",
           location_var := "", notes_var := "" },
         .added item)

/-- Outcome of `delete_selected`: the "Kein Eintrag ausgewählt" notice, or
a completed deletion. -/
inductive DeleteResult where
  | noSelection
  | deleted
deriving DecidableEq, Repr

/-- `InventoryApp.delete_selected` (lines 127-139). `sel` is the selection:
`none` when `tree.selection()` is empty, `some i` when the selected row
sits at position `i` of the tree (`tree.index`). The row is deleted from
the tree first; then `del self._items[index]`, and on `IndexError` the
ledger is rebuilt from the remaining tree rows
(`InventoryItem(*values)` per row, line 139). -/
def delete_selected (sel : Option Nat) (s : AppState) : AppState × DeleteResult :=
  match sel with
  | none => (s, .noSelection)
  | some i =>
    let tree' := s.tree.eraseIdx i
    if i < s.items.length then
      ({ s with tree := tree', items := s.items.eraseIdx i }, .deleted)
    else
      ({ s with tree := tree', items := tree'.map fromRow }, .deleted)

/-- `InventoryApp.clear_items` (lines 141-144): only when the user answers
yes to the confirmation dialog, empty the tree and `_items`. -/
def clear_items (confirm : Bool) (s : AppState) : AppState :=
  if confirm then { s with items := [], tree := [] } else s

/- ### CSV export (`_write_csv`, lines 162-172)

`csv.DictWriter` with the default `excel` dialect: delimiter `,`,
quote char `"`, `QUOTE_MINIMAL`, line terminator CRLF, doubled quotes.
A field is quoted iff it contains a comma, a quote, or a CR/LF character
(the single-empty-field corner of the Python writer cannot arise: every
record here has exactly four fields). -/

/-- Does the excel dialect quote this field under QUOTE_MINIMAL? -/
def needsQuote (f : String) : Bool :=
  f.toList.any (fun c => c = ',' || c = '"' || c = '\r' || c = '\n')

/-- One field as written: quoted with doubled quote chars when needed. -/
def quoteField (f : String) : String :=
  if needsQuote f then
    "\"" ++ String.join (f.toList.map
      (fun c => if c = '"' then "\"\"" else String.singleton c)) ++ "\""
  else f

/-- One CSV record: comma-joined fields plus CRLF. -/
def csvRecord (fields : List String) : String :=
  String.intercalate "," (fields.map quoteField) ++ "\r\n"

/-- The values row written for one item, quantity rendered as `str(int)`
(decimal form). -/
def itemRecord (it : InventoryItem) : String :=
  csvRecord [it.name, toString it.quantity, it.location, it.notes]

/-- `_write_csv`: header row `Artikel,Menge,Standort,Notizen` then one
record per item in sequence order. The result is the full text written to
the file (UTF-8 on disk). -/
def writeCsv (items : List InventoryItem) : String :=
  csvRecord ["Artikel", "Menge", "Standort", "Notizen"]
    ++ String.join (items.map itemRecord)

/-- Outcome of `export_csv` (lines 146-160): the "Keine Daten" notice on an
empty ledger, a cancelled save dialog, an `IOError` raised during writing,
or a successful save carrying the text written to the file. -/
inductive ExportResult where
  | emptyLedger
  | cancelled
  | ioError
  | saved (content : String)
deriving DecidableEq, Repr

/-- `InventoryApp.export_csv`: refuse on an empty ledger; otherwise ask for
a path (`pathChoice`, `none` when the user cancels) and call `_write_csv`,
whose write may fail (`writeOk = false` models an `IOError`). No branch
touches `_items` or any other state. -/
def export_csv (pathChoice : Option String) (writeOk : Bool) (s : AppState) :
    AppState × ExportResult :=
  if s.items = [] then (s, .emptyLedger)
  else
    match pathChoice with
    | none => (s, .cancelled)
    | some _ => if writeOk then (s, .saved (writeCsv s.items)) else (s, .ioError)

/-- The file written by an export, if any: only a successful save writes a
(complete) file. -/
def writtenFile : ExportResult → Option String
  | .saved content => some content
  | _ => none

/- ### Reading a CSV text back (excel dialect, CRLF records)

Used to state the round-trip claim about the exported file. -/

/-- Consume a quoted field body: `""` is an escaped quote, a single `"`
ends the field. -/
def readQuoted : List Char → String → Option (String × List Char)
  | [], _ => none
  | '"' :: '"' :: cs, acc => readQuoted cs (acc.push '"')
  | '"' :: cs, acc => some (acc, cs)
  | c :: cs, acc => readQuoted cs (acc.push c)

/-- Consume an unquoted field: up to the next comma or CR/LF. -/
def readUnquoted : List Char → String → String × List Char
  | [], acc => (acc, [])
  | c :: cs, acc =>
      if c = ',' || c = '\r' || c = '\n' then (acc, c :: cs)
      else readUnquoted cs (acc.push c)

/-- Consume one field, quoted or not. -/
def readField : List Char → Option (String × List Char)
  | '"' :: cs => readQuoted cs ""
  | cs => some (readUnquoted cs "")

/-- Consume the comma-separated fields of one record (fuel-bounded). -/
def readFieldsAux : Nat → List Char → Option (List String × List Char)
  | 0, _ => none
  | fuel + 1, cs =>
    match readField cs with
    | none => none
    | some (f, rest) =>
      match rest with
      | ',' :: rest' =>
          (readFieldsAux fuel rest').map (fun p => (f :: p.1, p.2))
      | _ => some ([f], rest)

/-- Consume CRLF-terminated records until the end of the text
(fuel-bounded). -/
def readRecordsAux : Nat → List Char → Option (List (List String))
  | 0, _ => none
  | fuel + 1, cs =>
    match cs with
    | [] => some []
    | _ =>
      match readFieldsAux (cs.length + 1) cs with
      | none => none
      | some (fs, rest) =>
        match rest with
        | '\r' :: '\n' :: rest' => (readRecordsAux fuel rest').map (fs :: ·)
        | [] => some [fs]
        | _ => none

/-- Read a CSV text back as a list of records of fields. -/
def readCsv (s : String) : Option (List (List String)) :=
  readRecordsAux (s.length + 1) s.toList

/- ### Reachable states (for the data-model invariant)

The user can type into the four StringVars and press the four buttons;
`Step` covers exactly those events and `Reachable` the states a run of
the program can be in. -/

/-- One UI event: editing a form field, or one of the four button
callbacks. -/
inductive Step : AppState → AppState → Prop where
  | typeName (s : AppState) (v : String) : Step s { s with name_var := v }
  | typeQuantity (s : AppState) (v : String) : Step s { s with quantity_var := v }
  | typeLocation (s : AppState) (v : String) : Step s { s with location_var := v }
  | typeNotes (s : AppState) (v : String) : Step s { s with notes_var := v }
  | add (s : AppState) : Step s (add_item s).1
  | deleteSel (s : AppState) (sel : Option Nat) : Step s (delete_selected sel s).1
  | clear (s : AppState) (confirm : Bool) : Step s (clear_items confirm s)
  | exportEvent (s : AppState) (p : Option String) (ok : Bool) :
      Step s (export_csv p ok s).1

/-- States reachable from program start. -/
def Reachable (s : AppState) : Prop :=
  Relation.ReflTransGen Step initState s

/-- The data-model constraints on one entry: non-empty name, quantity at
least 1 (location and notes are unconstrained text). -/
def EntryOk (it : InventoryItem) : Prop :=
  it.name ≠ "" ∧ 1 ≤ it.quantity

/-- The internal invariant carried through every step: all entries satisfy
the data model, and the tree mirrors the ledger row for row. -/
def GoodState (s : AppState) : Prop :=
  (∀ it ∈ s.items, EntryOk it) ∧ s.tree = s.items.map toRow

/- ### Helper lemmas -/

theorem fromRow_toRow (it : InventoryItem) : fromRow (toRow it) = it := rfl

theorem map_fromRow_toRow (l : List InventoryItem) : (l.map toRow).map fromRow = l := by
  induction l with
  | nil => rfl
  | cons a l ih => simp [ih, fromRow, toRow]

theorem eraseIdx_oob {α : Type u} (l : List α) :
    ∀ i : Nat, l.length ≤ i → l.eraseIdx i = l := by
  induction l with
  | nil => intro i _; rfl
  | cons a l ih =>
    intro i h
    cases i with
    | zero => simp at h
    | succ i =>
      show a :: l.eraseIdx i = a :: l
      rw [ih i (by simpa using h)]

theorem map_eraseIdx_comm {α : Type u} {β : Type v} (f : α → β) (l : List α) :
    ∀ i : Nat, (l.map f).eraseIdx i = (l.eraseIdx i).map f := by
  induction l with
  | nil => intro i; rfl
  | cons a l ih =>
    intro i
    cases i with
    | zero => rfl
    | succ i =>
      show f a :: (l.map f).eraseIdx i = f a :: (l.eraseIdx i).map f
      rw [ih i]

theorem export_csv_fst (p : Option String) (ok : Bool) (s : AppState) :
    (export_csv p ok s).1 = s := by
  rcases p with _ | path <;> cases ok <;>
    by_cases h : s.items = [] <;> simp [export_csv, h]

/- ### Claim theorems -/

/-- Claim C6 (confirmed): for every name input that is blank after
trimming, `add_item` warns `emptyName` and leaves the whole state (in
particular the ledger sequence) unchanged, regardless of the other
inputs. -/
theorem C6_empty_name (s : AppState) (h : pyStrip s.name_var = "") :
    add_item s = (s, AddResult.emptyName) := by
  simp [add_item, h]

/-- Witness for C6 at a concrete state with a whitespace-only name. -/
theorem C6_empty_name_witness :
    add_item { items := [], tree := [], name_var := "   ", quantity_var := "5",
               location_var := "L", notes_var := "n" } =
      ({ items := [], tree := [], name_var := "   ", quantity_var := "5",
         location_var := "L", notes_var := "n" }, AddResult.emptyName) :=
  C6_empty_name _ (by decide)

/-- Claim C7 (confirmed): on an empty ledger `export_csv` signals
`emptyLedger` (the "Keine Daten" notice), writes no file, and the state
(hence the empty ledger) is unchanged. -/
theorem C7_empty_export (s : AppState) (p : Option String) (ok : Bool)
    (h : s.items = []) :
    export_csv p ok s = (s, ExportResult.emptyLedger) ∧
    writtenFile (export_csv p ok s).2 = none := by
  simp [export_csv, h, writtenFile]

/-- Witness for C7 at the initial (empty) state with a chosen path and a
healthy file system. -/
theorem C7_empty_export_witness :
    export_csv (some "inventur.csv") true initState =
      (initState, ExportResult.emptyLedger) ∧
    writtenFile (export_csv (some "inventur.csv") true initState).2 = none :=
  C7_empty_export initState (some "inventur.csv") true (by decide)

/-- Claim C9 (confirmed): no branch of `export_csv` — in particular the
`ioError` branch where `_write_csv` fails — changes any state; the ledger
sequence after a failed export equals the one before, so the user may
retry. -/
theorem C9_export_preserves_items (s : AppState) (p : Option String) (ok : Bool) :
    (export_csv p ok s).1 = s ∧ (export_csv p ok s).1.items = s.items := by
  refine ⟨export_csv_fst p ok s, ?_⟩
  rw [export_csv_fst p ok s]

/-- Claim C4 (confirmed): when the model index `i` is out of range for the
ledger (selection and model disagree), `delete_selected` rebuilds `_items`
from the remaining tree rows, so afterwards the ledger equals, element for
element in order, the rows displayed in the table. -/
theorem C4_resync (s : AppState) (i : Nat) (h : s.items.length ≤ i) :
    (delete_selected (some i) s).1.items =
      ((delete_selected (some i) s).1.tree).map fromRow ∧
    (delete_selected (some i) s).1.tree = s.tree.eraseIdx i := by
  have h' : ¬ i < s.items.length := Nat.not_lt.mpr h
  constructor <;> simp [delete_selected, h']

/-- Witness for C4 at a diverged state: one ledger entry but two displayed
rows, deleting the second row. -/
theorem C4_resync_witness :
    (delete_selected (some 1)
        { items := [⟨"A", 1, "", ""⟩], tree := [("A", 1, "", ""), ("B", 2, "Regal B", "")],
          name_var := "", quantity_var := "1", location_var := "", notes_var := "" }).1.items =
      ((delete_selected (some 1)
        { items := [⟨"A", 1, "", ""⟩], tree := [("A", 1, "", ""), ("B", 2, "Regal B", "")],
          name_var := "", quantity_var := "1", location_var := "", notes_var := "" }).1.tree).map fromRow ∧
    (delete_selected (some 1)
        { items := [⟨"A", 1, "", ""⟩], tree := [("A", 1, "", ""), ("B", 2, "Regal B", "")],
          name_var := "", quantity_var := "1", location_var := "", notes_var := "" }).1.tree =
      [("A", 1, "", ""), ("B", 2, "Regal B", "")].eraseIdx 1 :=
  C4_resync _ 1 (by decide)

/-- Claim C8 (confirmed): deleting at an in-bounds position `i` reports a
deletion, shrinks the ledger by exactly one, and leaves exactly the
entries before `i` followed by the entries after `i`, in order. -/
theorem C8_remove_at (s : AppState) (i : Nat) (h : i < s.items.length) :
    (delete_selected (some i) s).2 = DeleteResult.deleted ∧
    (delete_selected (some i) s).1.items.length + 1 = s.items.length ∧
    (delete_selected (some i) s).1.items =
      s.items.take i ++ s.items.drop (i + 1) := by
  refine ⟨by simp [delete_selected, h], ?_, ?_⟩
  · simp only [delete_selected, if_pos h, List.length_eraseIdx, if_pos h]
    omega
  · simp [delete_selected, h, List.eraseIdx_eq_take_drop_succ]

/-- Witness for C8: the spec's own scenario, deleting position 0 from
[("A",1,"",""), ("B",2,"","")] leaves exactly [("B",2,"","")]. -/
theorem C8_remove_at_witness :
    (delete_selected (some 0)
        { items := [⟨"A", 1, "", ""⟩, ⟨"B", 2, "", ""⟩],
          tree := [("A", 1, "", ""), ("B", 2, "", "")],
          name_var := "", quantity_var := "1", location_var := "", notes_var := "" }).2 =
      DeleteResult.deleted ∧
    (delete_selected (some 0)
        { items := [⟨"A", 1, "", ""⟩, ⟨"B", 2, "", ""⟩],
          tree := [("A", 1, "", ""), ("B", 2, "", "")],
          name_var := "", quantity_var := "1", location_var := "", notes_var := "" }).1.items.length + 1 = 2 ∧
    (delete_selected (some 0)
        { items := [⟨"A", 1, "", ""⟩, ⟨"B", 2, "", ""⟩],
          tree := [("A", 1, "", ""), ("B", 2, "", "")],
          name_var := "", quantity_var := "1", location_var := "", notes_var := "" }).1.items =
      [⟨"A", 1, "", ""⟩, ⟨"B", 2, "", ""⟩].take 0 ++ [⟨"A", 1, "", ""⟩, ⟨"B", 2, "", ""⟩].drop 1 :=
  C8_remove_at _ 0 (by decide)

theorem add_item_valid (s : AppState) (q : Int) (hname : pyStrip s.name_var ≠ "")
    (hq : pyInt s.quantity_var = some q) (hq1 : 1 ≤ q) :
    add_item s =
      ({ items := s.items ++
            [⟨pyStrip s.name_var, q, pyStrip s.location_var, pyStrip s.notes_var⟩],
         tree := s.tree ++
            [toRow ⟨pyStrip s.name_var, q, pyStrip s.location_var, pyStrip s.notes_var⟩],
         name_var := "", quantity_var := "1", location_var := "", notes_var := "" },
       AddResult.added ⟨pyStrip s.name_var, q, pyStrip s.location_var, pyStrip s.notes_var⟩) := by
  simp [add_item, hname, hq, Int.not_lt.mpr hq1]

/-- Claim C1 as stated is false: a valid add does not append the input
tuple verbatim — location (like name and notes) is stripped before the
entry is built. Input name "A", quantity text "2", location " Regal A ",
notes "": the appended entry carries location "Regal A", not the input
" Regal A ". -/
theorem C1_counterexample :
    (add_item { items := [], tree := [], name_var := "A", quantity_var := "2",
                location_var := " Regal A ", notes_var := "" }).1.items =
      [⟨"A", 2, "Regal A", ""⟩] ∧
    (⟨"A", 2, "Regal A", ""⟩ : InventoryItem) ≠ ⟨"A", 2, " Regal A ", ""⟩ := by
  decide

/-- Claim C1 (corrected): for every valid input (name non-blank after
stripping, quantity text parsing to an integer at least 1), `add_item`
appends exactly one entry — equal to the input tuple with name, location
and notes whitespace-stripped and the quantity parsed — and the ledger
length grows by exactly 1. -/
theorem C1_add_appends (s : AppState) (q : Int) (hname : pyStrip s.name_var ≠ "")
    (hq : pyInt s.quantity_var = some q) (hq1 : 1 ≤ q) :
    (add_item s).1.items = s.items ++
      [⟨pyStrip s.name_var, q, pyStrip s.location_var, pyStrip s.notes_var⟩] ∧
    (add_item s).1.items.length = s.items.length + 1 ∧
    (add_item s).2 =
      AddResult.added ⟨pyStrip s.name_var, q, pyStrip s.location_var, pyStrip s.notes_var⟩ := by
  rw [add_item_valid s q hname hq hq1]
  simp

/-- Witness for C1 on the concrete input ("Schraube", "10", "Regal A",
"rostfrei") against the empty ledger. -/
theorem C1_add_appends_witness :
    (add_item { items := [], tree := [], name_var := "Schraube", quantity_var := "10",
                location_var := "Regal A", notes_var := "rostfrei" }).1.items =
      [] ++ [⟨pyStrip "Schraube", 10, pyStrip "Regal A", pyStrip "rostfrei"⟩] ∧
    (add_item { items := [], tree := [], name_var := "Schraube", quantity_var := "10",
                location_var := "Regal A", notes_var := "rostfrei" }).1.items.length =
      List.length ([] : List InventoryItem) + 1 ∧
    (add_item { items := [], tree := [], name_var := "Schraube", quantity_var := "10",
                location_var := "Regal A", notes_var := "rostfrei" }).2 =
      AddResult.added ⟨pyStrip "Schraube", 10, pyStrip "Regal A", pyStrip "rostfrei"⟩ :=
  C1_add_appends _ 10 (by decide) (by decide) (by decide)

/-- Claim C5 as stated is false on one corner: when the name is also
blank, the name check runs first, so add signals `emptyName`, not
`invalidQuantity` (the ledger is still unchanged). Input name " ",
quantity text "abc". -/
theorem C5_counterexample :
    (add_item { items := [], tree := [], name_var := " ", quantity_var := "abc",
                location_var := "", notes_var := "" }).2 = AddResult.emptyName ∧
    AddResult.emptyName ≠ AddResult.invalidQuantity ∧ pyInt "abc" = none := by
  decide

/-- Claim C5 (corrected): provided the name is non-blank after stripping,
for every quantity text that does not parse as an integer or parses below
1, `add_item` warns `invalidQuantity` and leaves the whole state (in
particular the ledger sequence) unchanged. -/
theorem C5_invalid_quantity (s : AppState) (hname : pyStrip s.name_var ≠ "")
    (hq : ∀ q : Int, pyInt s.quantity_var = some q → q < 1) :
    add_item s = (s, AddResult.invalidQuantity) := by
  cases h : pyInt s.quantity_var with
  | none => simp [add_item, hname, h]
  | some q => simp [add_item, hname, h, hq q h]

/-- Witness for C5 at quantity text "0" (and the other listed quantity
texts evaluated): the state is returned unchanged with the warning. -/
theorem C5_invalid_quantity_witness :
    add_item { items := [], tree := [], name_var := "A", quantity_var := "0",
               location_var := "", notes_var := "" } =
      ({ items := [], tree := [], name_var := "A", quantity_var := "0",
         location_var := "", notes_var := "" }, AddResult.invalidQuantity) :=
  C5_invalid_quantity _ (by decide)
    (by
      intro q hq
      rw [show pyInt "0" = some 0 by decide] at hq
      injection hq with h
      omega)

/-- Claim C10 (confirmed): a successful add resets the four form fields to
their initial values ("", "1", "", ""), while a rejected add (emptyName or
invalidQuantity) returns the state — all four form fields included —
unchanged. -/
theorem C10_form_reset (s : AppState) :
    (∀ it : InventoryItem, (add_item s).2 = AddResult.added it →
      ((add_item s).1.name_var = "" ∧ (add_item s).1.quantity_var = "1" ∧
       (add_item s).1.location_var = "" ∧ (add_item s).1.notes_var = "")) ∧
    ((add_item s).2 = AddResult.emptyName ∨ (add_item s).2 = AddResult.invalidQuantity →
      (add_item s).1 = s) := by
  by_cases hname : pyStrip s.name_var = ""
  · simp [add_item, hname]
  · cases hq : pyInt s.quantity_var with
    | none => simp [add_item, hname, hq]
    | some q =>
      by_cases hlt : q < 1
      · simp [add_item, hname, hq, hlt]
      · simp [add_item, hname, hq, hlt]

/-- Witness for C10: form reset after a successful concrete add, and an
unchanged state after a rejected concrete add. -/
theorem C10_form_reset_witness :
    ((add_item { items := [], tree := [], name_var := "A", quantity_var := "2",
                 location_var := "L", notes_var := "n" }).1.name_var = "" ∧
     (add_item { items := [], tree := [], name_var := "A", quantity_var := "2",
                 location_var := "L", notes_var := "n" }).1.quantity_var = "1" ∧
     (add_item { items := [], tree := [], name_var := "A", quantity_var := "2",
                 location_var := "L", notes_var := "n" }).1.location_var = "" ∧
     (add_item { items := [], tree := [], name_var := "A", quantity_var := "2",
                 location_var := "L", notes_var := "n" }).1.notes_var = "") ∧
    (add_item { items := [], tree := [], name_var := " ", quantity_var := "2",
                location_var := "L", notes_var := "n" }).1 =
      { items := [], tree := [], name_var := " ", quantity_var := "2",
        location_var := "L", notes_var := "n" } :=
  ⟨(C10_form_reset _).1 ⟨"A", 2, "L", "n"⟩ (by decide),
   (C10_form_reset _).2 (Or.inl (by decide))⟩

theorem add_preserves {s : AppState} (hs : GoodState s) : GoodState (add_item s).1 := by
  by_cases hname : pyStrip s.name_var = ""
  · simpa [add_item, hname] using hs
  · cases hq : pyInt s.quantity_var with
    | none => simpa [add_item, hname, hq] using hs
    | some q =>
      by_cases hlt : q < 1
      · simpa [add_item, hname, hq, hlt] using hs
      · constructor
        · intro it hit
          simp [add_item, hname, hq, hlt] at hit
          rcases hit with hit | hit
          · exact hs.1 it hit
          · subst hit
            exact ⟨hname, Int.not_lt.mp hlt⟩
        · simp [add_item, hname, hq, hlt, hs.2]

theorem delete_preserves {s : AppState} (hs : GoodState s) (sel : Option Nat) :
    GoodState (delete_selected sel s).1 := by
  cases sel with
  | none => exact hs
  | some i =>
    by_cases h : i < s.items.length
    · constructor
      · intro it hit
        simp [delete_selected, h] at hit
        exact hs.1 it (List.mem_of_mem_eraseIdx hit)
      · simp [delete_selected, h, hs.2, map_eraseIdx_comm]
    · have hlen : s.tree.length ≤ i := by
        rw [hs.2]
        simpa using Nat.le_of_not_lt h
      have htree : s.tree.eraseIdx i = s.tree := eraseIdx_oob _ _ hlen
      have hitems : (s.tree.eraseIdx i).map fromRow = s.items := by
        rw [htree, hs.2, map_fromRow_toRow]
      constructor
      · intro it hit
        simp only [delete_selected, if_neg h] at hit
        rw [hitems] at hit
        exact hs.1 it hit
      · simp only [delete_selected, if_neg h]
        rw [hitems, htree, hs.2]

theorem clear_preserves {s : AppState} (hs : GoodState s) (confirm : Bool) :
    GoodState (clear_items confirm s) := by
  cases confirm with
  | false => exact hs
  | true =>
    constructor
    · intro it hit
      simp [clear_items] at hit
    · simp [clear_items]

theorem reachable_good {s : AppState} (h : Reachable s) : GoodState s := by
  induction h with
  | refl =>
    constructor
    · intro it hit
      simp [initState] at hit
    · rfl
  | tail _ hstep ih =>
    cases hstep with
    | typeName v => exact ⟨ih.1, ih.2⟩
    | typeQuantity v => exact ⟨ih.1, ih.2⟩
    | typeLocation v => exact ⟨ih.1, ih.2⟩
    | typeNotes v => exact ⟨ih.1, ih.2⟩
    | add => exact add_preserves ih
    | deleteSel sel => exact delete_preserves ih sel
    | clear confirm => exact clear_preserves ih confirm
    | exportEvent p ok => rw [export_csv_fst]; exact ih

/-- Claim C3 (confirmed): in every state the program can reach — any
sequence of typing, add, delete-selected (its recovery path included),
clear and export events from the start state — every entry of the ledger
satisfies the data model: the name is non-empty and the quantity is an
integer at least 1 (location and notes are plain text fields of the
record type). -/
theorem C3_data_model (s : AppState) (h : Reachable s) :
    ∀ it ∈ s.items, EntryOk it :=
  (reachable_good h).1

/-- Witness for C3: the entry created by typing name "A" at the start
state and pressing add lives in a reachable state, so the data model
holds of it. -/
theorem C3_data_model_witness :
    EntryOk ⟨"A", 1, "", ""⟩ := by
  have h1 : Step initState { initState with name_var := "A" } :=
    Step.typeName initState "A"
  have h2 : Step { initState with name_var := "A" }
      (add_item { initState with name_var := "A" }).1 :=
    Step.add { initState with name_var := "A" }
  have hr : Reachable (add_item { initState with name_var := "A" }).1 :=
    Relation.ReflTransGen.tail (Relation.ReflTransGen.tail Relation.ReflTransGen.refl h1) h2
  exact C3_data_model _ hr ⟨"A", 1, "", ""⟩ (by decide)

/-- Claim C2 (confirmed): for the ledger [("Schraube",10,"Regal A",
"rostfrei"), ("Mutter",25,"Regal B","")] the exported text is exactly the
header `Artikel,Menge,Standort,Notizen` followed by the two data rows with
quantities rendered "10" and "25", and reading the text back with an
excel-dialect CSV reader yields the header and exactly those two records
verbatim; in general the written text is the header record followed by one
record per entry in sequence order (fields under standard CSV quoting). -/
theorem C2_csv_roundtrip :
    writeCsv [⟨"Schraube", 10, "Regal A", "rostfrei"⟩, ⟨"Mutter", 25, "Regal B", ""⟩] =
      "Artikel,Menge,Standort,Notizen\r\nSchraube,10,Regal A,rostfrei\r\nMutter,25,Regal B,\r\n" ∧
    readCsv (writeCsv [⟨"Schraube", 10, "Regal A", "rostfrei"⟩, ⟨"Mutter", 25, "Regal B", ""⟩]) =
      some [["Artikel", "Menge", "Standort", "Notizen"],
            ["Schraube", "10", "Regal A", "rostfrei"],
            ["Mutter", "25", "Regal B", ""]] ∧
    ∀ items : List InventoryItem,
      writeCsv items =
        csvRecord ["Artikel", "Menge", "Standort", "Notizen"] ++
          String.join (items.map itemRecord) := by
  refine ⟨by decide, by decide, fun items => rfl⟩
